import Mathlib

/-!
Verification development for the `BugRunner` widget
(`src/src/components/BugRunner.tsx`).

The widget's motion/interaction logic is shallowly embedded here.
Numbers are modelled as exact rationals (`ℚ`); the sources of
nondeterminism (`Math.random`, `randUnitVector`, `performance.now`)
become explicit parameters:
  * a random unit direction is any `u : Vec` with `u.x ^ 2 + u.y ^ 2 = 1`
    (the image of `angle ↦ (cos angle, sin angle)`);
  * a `Math.random()` draw is any `r : ℚ` with `0 ≤ r < 1`;
  * frame timestamps and the tick's elapsed seconds are parameters.

React state-update semantics are preserved: inside one `step` callback,
integration reads the *ref* mirrors (`posRef`, `velRef`), which still
hold the values from before the tick, while the functional
`setVel` updates of the bounce branch apply to the already-queued
velocity (the freshly randomized one when the deadline fired this tick).
-/

namespace BugRunner

/-- A 2D point/vector in container-local pixel coordinates. -/
structure Vec where
  x : ℚ
  y : ℚ
deriving DecidableEq, Repr

/-- Measured container bounds: `{ w: rect.width, h: rect.height, padding: 24 }`. -/
structure Bounds where
  w : ℚ
  h : ℚ
  padding : ℚ
deriving DecidableEq, Repr

/-- Source: `const SPEED = 170; // px per second`. -/
def SPEED : ℚ := 170

/-- Source: `const CHANGE_INTERVAL_MIN = 700; // ms`. -/
def CHANGE_INTERVAL_MIN : ℚ := 700

/-- Source: `const CHANGE_INTERVAL_MAX = 2200; // ms`. -/
def CHANGE_INTERVAL_MAX : ℚ := 2200

/-- The widget's state: `pos`, `vel`, `dragging`, `dragOffsetRef`,
`bounds`, `nextChangeAt`. -/
structure State where
  pos : Vec
  vel : Vec
  dragging : Bool
  dragOffset : Vec
  bounds : Bounds
  nextChangeAt : ℚ
deriving DecidableEq, Repr

/-- Source `randUnitVector()` returns `(cos angle, sin angle)`; we model its
outcome as any vector on the unit circle. -/
def IsUnitVec (u : Vec) : Prop := u.x ^ 2 + u.y ^ 2 = 1

/-- A `Math.random()` outcome: a value in `[0, 1)`. -/
def Rand01 (r : ℚ) : Prop := 0 ≤ r ∧ r < 1

/-- Deadline formula
`t + CHANGE_INTERVAL_MIN + Math.random() * (CHANGE_INTERVAL_MAX - CHANGE_INTERVAL_MIN)`
with the `Math.random()` draw `r` made explicit. -/
def scheduleNext (t r : ℚ) : ℚ :=
  t + CHANGE_INTERVAL_MIN + r * (CHANGE_INTERVAL_MAX - CHANGE_INTERVAL_MIN)

/-- A random unit direction scaled by `SPEED`:
`{ x: v.x * SPEED, y: v.y * SPEED }`. -/
def scaledVel (u : Vec) : Vec := ⟨u.x * SPEED, u.y * SPEED⟩

/-- The initial state: `pos = {x: 0, y: 0}`, `vel = randUnitVector() × SPEED`,
`dragging = false`, `bounds = {w: 0, h: 0, padding: 24}`,
`nextChangeAt = performance.now() + CHANGE_INTERVAL_MIN + random * (MAX - MIN)`.
`t0` is the `performance.now()` reading, `u` the unit direction, `r` the draw. -/
def initState (u : Vec) (t0 r : ℚ) : State :=
  { pos := ⟨0, 0⟩
    vel := scaledVel u
    dragging := false
    dragOffset := ⟨0, 0⟩
    bounds := ⟨0, 0, 24⟩
    nextChangeAt := scheduleNext t0 r }

/-- The `measure` closure of the first `useEffect`: runs on mount and on
every `ResizeObserver` notification. It sets
`bounds = {w: rect.width, h: rect.height, padding: 24}` **and**
`pos = {x: rect.width / 2, y: rect.height / 2}`. -/
def measure (w h : ℚ) (s : State) : State :=
  { s with bounds := ⟨w, h, 24⟩, pos := ⟨w / 2, h / 2⟩ }

/-- One animation-frame callback `step(t)`. `t` is the frame timestamp,
`dt` the elapsed seconds `(t - last) / 1000`, `u` the unit direction and
`r` the `Math.random()` draw used if the deadline fired.

Faithful to the React semantics of the source:
* the randomization branch queues `setVel(scaledVel u)` but `velRef.current`
  is unchanged until the next render, so the integration
  `posRef.current.x + velRef.current.x * dt` uses the *pre-tick* velocity
  `s.vel`;
* the bounce branch uses functional updates `setVel (v => ...)`, which apply
  to the queued velocity `vel1`.

One axis of the bounce branch is factored out as `bounce1`: position `n`
integrated on this axis, clamp limits `lo = pad` and
`hi = max(pad, dim - pad)`, velocity component `v` as queued at that point;
it returns the (position, velocity) pair for the axis. -/
def bounce1 (lo hi n v : ℚ) : ℚ × ℚ :=
  if n ≤ lo then (lo, |v|) else if hi ≤ n then (hi, -|v|) else (n, v)

/-- One animation-frame callback `step(t)` of the source, with `bounce1`
applied per axis exactly as the source's conditional chain does. -/
def tick (t dt : ℚ) (u : Vec) (r : ℚ) (s : State) : State :=
  let fire := s.dragging = false ∧ s.nextChangeAt ≤ t
  let vel1 := if fire then scaledVel u else s.vel
  let next1 := if fire then scheduleNext t r else s.nextChangeAt
  if s.dragging = false then
    let pad := s.bounds.padding
    let bx := bounce1 pad (max pad (s.bounds.w - pad)) (s.pos.x + s.vel.x * dt) vel1.x
    let bY := bounce1 pad (max pad (s.bounds.h - pad)) (s.pos.y + s.vel.y * dt) vel1.y
    { s with pos := ⟨bx.1, bY.1⟩, vel := ⟨bx.2, bY.2⟩, nextChangeAt := next1 }
  else
    { s with vel := vel1, nextChangeAt := next1 }

/-- Handler `onPointerDown`: `(px, py)` is the pointer position in container-local
coordinates; the grabbed element's visual center is rendered at `s.pos`,
so `dragOffsetRef.current = pointer − element center = (px − pos.x, py − pos.y)`.
Sets `dragging = true` and zeroes the velocity. -/
def onPointerDown (px py : ℚ) (s : State) : State :=
  { s with dragging := true
           dragOffset := ⟨px - s.pos.x, py - s.pos.y⟩
           vel := ⟨0, 0⟩ }

/-- Handler `onPointerMove`: ignored unless dragging. `(px, py)` is
`(e.clientX - crect.left, e.clientY - crect.top)`, the pointer in
container-local coordinates. The new position is
`max(pad, min(pointer − offset, bounds − pad))` per axis. -/
def onPointerMove (px py : ℚ) (s : State) : State :=
  if s.dragging = false then s
  else
    let pad := s.bounds.padding
    let x := px - s.dragOffset.x
    let y := py - s.dragOffset.y
    { s with pos := ⟨max pad (min x (s.bounds.w - pad)),
                     max pad (min y (s.bounds.h - pad))⟩ }

/-- Handler `onPointerUp`: ignored unless dragging. `now` is the `performance.now()`
reading, `u` the fresh unit direction, `r` the `Math.random()` draw.
`Math.hypot(dx, dy) < 60` is rendered as the equivalent
`dx ^ 2 + dy ^ 2 < 60 ^ 2` (both sides nonnegative). -/
def onPointerUp (now : ℚ) (u : Vec) (r : ℚ) (s : State) : State :=
  if s.dragging = false then s
  else
    let cx := s.bounds.w / 2
    let cy := s.bounds.h / 2
    let dx := s.pos.x - cx
    let dy := s.pos.y - cy
    let pos1 := if dx ^ 2 + dy ^ 2 < 60 ^ 2 then (⟨cx, cy⟩ : Vec) else s.pos
    { s with dragging := false
             pos := pos1
             vel := scaledVel u
             nextChangeAt := scheduleNext now r }

/-- The states reachable by the widget: the initial state, followed by any
interleaving of resize measurements, animation frames and pointer events,
with every random draw well-formed. -/
inductive Reach : State → Prop where
  | init (u : Vec) (t0 r : ℚ) (hu : IsUnitVec u) (hr : Rand01 r) :
      Reach (initState u t0 r)
  | measure (w h : ℚ) (s : State) (hs : Reach s) : Reach (measure w h s)
  | tick (t dt : ℚ) (u : Vec) (r : ℚ) (s : State) (hs : Reach s)
      (hu : IsUnitVec u) (hr : Rand01 r) : Reach (tick t dt u r s)
  | down (px py : ℚ) (s : State) (hs : Reach s) : Reach (onPointerDown px py s)
  | move (px py : ℚ) (s : State) (hs : Reach s) : Reach (onPointerMove px py s)
  | up (now : ℚ) (u : Vec) (r : ℚ) (s : State) (hs : Reach s)
      (hu : IsUnitVec u) (hr : Rand01 r) : Reach (onPointerUp now u r s)

/-- Position containment within the padded box of bounds `b`. -/
def InBounds (b : Bounds) (p : Vec) : Prop :=
  b.padding ≤ p.x ∧ p.x ≤ b.w - b.padding ∧
  b.padding ≤ p.y ∧ p.y ≤ b.h - b.padding

/-- The spec's velocity-magnitude invariant, squared form: zero while
dragging, `SPEED` while autonomous (`‖v‖ = SPEED ↔ ‖v‖² = SPEED²`). -/
def SpeedInv (s : State) : Prop :=
  (s.dragging = true → s.vel = ⟨0, 0⟩) ∧
  (s.dragging = false → s.vel.x ^ 2 + s.vel.y ^ 2 = SPEED ^ 2)

/-- JS `Math.atan2(y, x)` on real arguments (ignoring signed zeros and
non-finite values, which never arise here): `Math.atan2(0, 0) = 0`. -/
noncomputable def atan2 (y x : ℝ) : ℝ :=
  if 0 < x then Real.arctan (y / x)
  else if x < 0 ∧ 0 ≤ y then Real.arctan (y / x) + Real.pi
  else if x < 0 ∧ y < 0 then Real.arctan (y / x) - Real.pi
  else if x = 0 ∧ 0 < y then Real.pi / 2
  else if x = 0 ∧ y < 0 then -(Real.pi / 2)
  else 0

/-- Source `const angleDeg = Math.atan2(vel.y, vel.x) * (180 / Math.PI) + 90` —
the derived facing angle, a pure function of the current velocity. -/
noncomputable def angleDeg (vy vx : ℝ) : ℝ :=
  atan2 vy vx * (180 / Real.pi) + 90

/-- The spec's concrete bounce scenario: container 400×300, padding 24,
entity at (390, 150), velocity (170, 0); deadline far in the future so no
randomization fires at `t = 0`. -/
def s400 : State :=
  { pos := ⟨390, 150⟩
    vel := ⟨170, 0⟩
    dragging := false
    dragOffset := ⟨0, 0⟩
    bounds := ⟨400, 300, 24⟩
    nextChangeAt := 1000 }

/-- Like `s400` but with the entity still inside the padded box at
x = 370, so a 100 ms tick at velocity (170, 0) crosses the right limit. -/
def s370 : State :=
  { pos := ⟨370, 150⟩
    vel := ⟨170, 0⟩
    dragging := false
    dragOffset := ⟨0, 0⟩
    bounds := ⟨400, 300, 24⟩
    nextChangeAt := 1000 }

/-- A mid-drag state: grab at the entity center (offset 0), entity at the
container center of a 400×300 container. -/
def sDrag : State :=
  { pos := ⟨200, 150⟩
    vel := ⟨0, 0⟩
    dragging := true
    dragOffset := ⟨0, 0⟩
    bounds := ⟨400, 300, 24⟩
    nextChangeAt := 0 }

/-- A not-yet-measured (zero-size) container with the entity at the origin. -/
def sZero : State :=
  { pos := ⟨0, 0⟩
    vel := ⟨170, 0⟩
    dragging := false
    dragOffset := ⟨0, 0⟩
    bounds := ⟨0, 0, 24⟩
    nextChangeAt := 1000 }

/-- A measured 640×480 container with the entity away from the center,
used to exercise the resize handler. -/
def s100 : State :=
  { pos := ⟨100, 100⟩
    vel := ⟨170, 0⟩
    dragging := false
    dragOffset := ⟨0, 0⟩
    bounds := ⟨640, 480, 24⟩
    nextChangeAt := 0 }

end BugRunner

namespace BugRunner

/-! ## Helper lemmas about the per-axis bounce -/

/-- The bounced position always lands inside `[lo, hi]`. -/
lemma bounce1_fst_mem (lo hi n v : ℚ) (h : lo ≤ hi) :
    lo ≤ (bounce1 lo hi n v).1 ∧ (bounce1 lo hi n v).1 ≤ hi := by
  unfold bounce1
  split_ifs with h1 h2 <;> constructor <;> simp <;> linarith

/-- Bouncing never changes the squared magnitude of the velocity component. -/
lemma bounce1_snd_sq (lo hi n v : ℚ) :
    (bounce1 lo hi n v).2 ^ 2 = v ^ 2 := by
  unfold bounce1
  split_ifs <;> simp [sq_abs]

/-- Strict crossing of the lower limit: clamp to `lo`, velocity `|v|`. -/
lemma bounce1_low (lo hi n v : ℚ) (h : n < lo) :
    bounce1 lo hi n v = (lo, |v|) := by
  unfold bounce1
  rw [if_pos (le_of_lt h)]

/-- Strict crossing of the upper limit: clamp to `hi`, velocity `-|v|`. -/
lemma bounce1_high (lo hi n v : ℚ) (hlh : lo ≤ hi) (h : hi < n) :
    bounce1 lo hi n v = (hi, -|v|) := by
  unfold bounce1
  rw [if_neg (by linarith), if_pos (le_of_lt h)]

/-- The bounced position after a strict lower crossing is `lo`, whatever
velocity the bounce is applied to. -/
lemma bounce1_fst_low (lo hi n v : ℚ) (h : n < lo) :
    (bounce1 lo hi n v).1 = lo := by
  rw [bounce1_low _ _ _ _ h]

/-- The bounced position after a strict upper crossing is `hi`, whatever
velocity the bounce is applied to. -/
lemma bounce1_fst_high (lo hi n v : ℚ) (hlh : lo ≤ hi) (h : hi < n) :
    (bounce1 lo hi n v).1 = hi := by
  rw [bounce1_high _ _ _ _ hlh h]

/-- Coincident limits (degenerate container): the position parks at `lo`. -/
lemma bounce1_park (lo n v : ℚ) :
    (bounce1 lo lo n v).1 = lo := by
  unfold bounce1
  split_ifs with h1 h2
  · rfl
  · rfl
  · exact absurd (le_of_not_le h1) h2

/-- Handler `onPointerMove` never changes the velocity. -/
lemma move_vel (px py : ℚ) (s : State) :
    (onPointerMove px py s).vel = s.vel := by
  unfold onPointerMove
  split_ifs <;> rfl

/-- Handler `onPointerMove` never changes the drag flag. -/
lemma move_dragging (px py : ℚ) (s : State) :
    (onPointerMove px py s).dragging = s.dragging := by
  unfold onPointerMove
  split_ifs <;> rfl

/-- The function `tick` never changes the drag flag. -/
lemma tick_dragging (t dt : ℚ) (u : Vec) (r : ℚ) (s : State) :
    (tick t dt u r s).dragging = s.dragging := by
  simp only [tick]
  split_ifs <;> rfl

/-! ## Claim theorems -/

/-- C1: with a measured, non-degenerate container (`2·padding ≤ w, h`), the
position produced by a non-dragging tick lies inside
`[padding, w − padding] × [padding, h − padding]`, and so does the position
produced by a pointer-move drag update. -/
theorem tick_and_drag_containment (s : State) (t dt r px py : ℚ) (u : Vec)
    (hw : 2 * s.bounds.padding ≤ s.bounds.w)
    (hh : 2 * s.bounds.padding ≤ s.bounds.h) :
    (s.dragging = false → InBounds s.bounds (tick t dt u r s).pos) ∧
    (s.dragging = true → InBounds s.bounds (onPointerMove px py s).pos) := by
  have hmx : max s.bounds.padding (s.bounds.w - s.bounds.padding)
      = s.bounds.w - s.bounds.padding := max_eq_right (by linarith)
  have hmy : max s.bounds.padding (s.bounds.h - s.bounds.padding)
      = s.bounds.h - s.bounds.padding := max_eq_right (by linarith)
  constructor
  · intro hd
    simp [tick, hd, InBounds]
    refine ⟨(bounce1_fst_mem _ _ _ _ (le_max_left _ _)).1,
            (bounce1_fst_mem _ _ _ _ (le_max_left _ _)).2.trans (le_of_eq hmx),
            (bounce1_fst_mem _ _ _ _ (le_max_left _ _)).1,
            (bounce1_fst_mem _ _ _ _ (le_max_left _ _)).2.trans (le_of_eq hmy)⟩
  · intro hd
    simp [onPointerMove, hd, InBounds]
    exact ⟨by linarith, by linarith⟩

/-- C1 witness: concrete instance at `s370` (400×300 container). -/
theorem tick_and_drag_containment_w :
    (s370.dragging = false → InBounds s370.bounds (tick 0 (1/10) ⟨1, 0⟩ 0 s370).pos) ∧
    (s370.dragging = true → InBounds s370.bounds (onPointerMove 10 10 s370).pos) :=
  tick_and_drag_containment s370 0 (1/10) 0 10 10 ⟨1, 0⟩
    (by norm_num [s370]) (by norm_num [s370])

/-- C3: in the spec's concrete scenario (container 400×300, padding 24,
position (390, 150), velocity (170, 0), a 100 ms tick, i.e.
`dt = 100/1000` s), the integrated x of 407 exceeds the upper limit 376, so
the final position has x = 376 and the velocity x-component becomes −170. -/
theorem bounce_scenario :
    (tick 0 (100/1000) ⟨1, 0⟩ 0 s400).pos.x = 376 ∧
    (tick 0 (100/1000) ⟨1, 0⟩ 0 s400).vel.x = -170 := by
  norm_num [tick, bounce1, s400, max_def, abs_of_pos]

/-- C5 counterexample: the resize/measure handler does *not* leave the
position unchanged — re-measuring a 640×480 container (entity at
(100, 100)) as 400×300 moves the entity to the new center (200, 150). -/
theorem measure_moves_position :
    (measure 400 300 s100).pos ≠ s100.pos := by
  norm_num [measure, s100]

/-- C5 (amended): every measure/resize event updates the stored bounds to
the measured size with padding 24 **and recenters the position to
(w/2, h/2)**; velocity and drag state are untouched. -/
theorem measure_sets_bounds_and_recenters (w h : ℚ) (s : State) :
    (measure w h s).bounds = ⟨w, h, 24⟩ ∧
    (measure w h s).pos = ⟨w / 2, h / 2⟩ ∧
    (measure w h s).vel = s.vel ∧
    (measure w h s).dragging = s.dragging := by
  refine ⟨rfl, rfl, rfl, rfl⟩

/-- C2 counterexample: the claimed sign flip fails on a deadline-expired
crossing tick. At `s370` — entity at the in-bounds x = 370 of a 400×300
container, pre-tick velocity (170, 0), deadline 1000 — a tick at t = 2000
(deadline expired) with fresh unit direction (0, 1) and draw 0 integrates x
to 387, strictly past the upper limit 376: the position clamps to 376, but
the bounce applies to the freshly drawn velocity (0, 170), so the post-tick
x-velocity is −|0| = 0, which is not of opposite sign to the pre-tick 170. -/
theorem reflection_law_cex :
    s370.dragging = false ∧
    s370.nextChangeAt ≤ 2000 ∧
    s370.bounds.padding ≤ s370.pos.x ∧
    s370.pos.x ≤ s370.bounds.w - s370.bounds.padding ∧
    s370.bounds.w - s370.bounds.padding < s370.pos.x + s370.vel.x * (1/10) ∧
    0 < s370.vel.x ∧
    (tick 2000 (1/10) ⟨0, 1⟩ 0 s370).pos.x = s370.bounds.w - s370.bounds.padding ∧
    (tick 2000 (1/10) ⟨0, 1⟩ 0 s370).vel.x = 0 := by
  norm_num [tick, bounce1, s370, scaledVel, SPEED, max_def, scheduleNext]

/-- C2 (amended): reflection law. For a non-dragging tick with positive
elapsed time from a position inside the padded box, if the integrated
position on an axis strictly exceeds a clamp limit, then the post-tick
position on that axis equals the limit exactly (no overshoot persists,
whether or not the randomization deadline expired during the tick), the
pre-tick velocity on that axis points strictly toward the crossed limit,
and — provided the deadline had not expired, so no fresh velocity was drawn
that tick — the post-tick velocity on that axis is the exact negation
(opposite sign) of its pre-tick value. On a deadline-expired tick the
bounce applies to the freshly drawn random velocity instead, whose
component on the crossing axis can be exactly 0 (see the counterexample),
so no sign relation to the pre-tick velocity holds there. -/
theorem reflection_law (s : State) (t dt : ℚ) (u : Vec) (r : ℚ)
    (hd : s.dragging = false) (hdt : 0 < dt)
    (hpx : s.bounds.padding ≤ s.pos.x ∧
      s.pos.x ≤ max s.bounds.padding (s.bounds.w - s.bounds.padding))
    (hpy : s.bounds.padding ≤ s.pos.y ∧
      s.pos.y ≤ max s.bounds.padding (s.bounds.h - s.bounds.padding)) :
    (s.pos.x + s.vel.x * dt < s.bounds.padding →
      s.vel.x < 0 ∧ (tick t dt u r s).pos.x = s.bounds.padding ∧
      (t < s.nextChangeAt → (tick t dt u r s).vel.x = -s.vel.x)) ∧
    (max s.bounds.padding (s.bounds.w - s.bounds.padding) < s.pos.x + s.vel.x * dt →
      0 < s.vel.x ∧
      (tick t dt u r s).pos.x = max s.bounds.padding (s.bounds.w - s.bounds.padding) ∧
      (t < s.nextChangeAt → (tick t dt u r s).vel.x = -s.vel.x)) ∧
    (s.pos.y + s.vel.y * dt < s.bounds.padding →
      s.vel.y < 0 ∧ (tick t dt u r s).pos.y = s.bounds.padding ∧
      (t < s.nextChangeAt → (tick t dt u r s).vel.y = -s.vel.y)) ∧
    (max s.bounds.padding (s.bounds.h - s.bounds.padding) < s.pos.y + s.vel.y * dt →
      0 < s.vel.y ∧
      (tick t dt u r s).pos.y = max s.bounds.padding (s.bounds.h - s.bounds.padding) ∧
      (t < s.nextChangeAt → (tick t dt u r s).vel.y = -s.vel.y)) := by
  refine ⟨?_, ?_, ?_, ?_⟩ <;> intro hcross
  · have hvx : s.vel.x < 0 := by
      by_contra hc
      push_neg at hc
      have := mul_nonneg hc hdt.le
      linarith [hpx.1]
    refine ⟨hvx, ?_, ?_⟩
    · by_cases hf : s.nextChangeAt ≤ t
      · simp [tick, hd, hf]
        exact bounce1_fst_low _ _ _ _ hcross
      · simp [tick, hd, hf]
        exact bounce1_fst_low _ _ _ _ hcross
    · intro ht
      have hnf : ¬ s.nextChangeAt ≤ t := not_le.mpr ht
      simp only [tick, hd, hnf, and_false, false_and, if_false, if_pos rfl]
      rw [bounce1_low _ _ _ _ hcross]
      simp [abs_of_neg hvx]
  · have hvx : 0 < s.vel.x := by
      by_contra hc
      push_neg at hc
      have := mul_nonneg (neg_nonneg.mpr hc) hdt.le
      have h2 : s.vel.x * dt ≤ 0 := by linarith [this]
      linarith [hpx.2]
    refine ⟨hvx, ?_, ?_⟩
    · by_cases hf : s.nextChangeAt ≤ t
      · simp [tick, hd, hf]
        exact bounce1_fst_high _ _ _ _ (le_max_left _ _) hcross
      · simp [tick, hd, hf]
        exact bounce1_fst_high _ _ _ _ (le_max_left _ _) hcross
    · intro ht
      have hnf : ¬ s.nextChangeAt ≤ t := not_le.mpr ht
      simp only [tick, hd, hnf, and_false, false_and, if_false, if_pos rfl]
      rw [bounce1_high _ _ _ _ (le_max_left _ _) hcross]
      simp [abs_of_pos hvx]
  · have hvy : s.vel.y < 0 := by
      by_contra hc
      push_neg at hc
      have := mul_nonneg hc hdt.le
      linarith [hpy.1]
    refine ⟨hvy, ?_, ?_⟩
    · by_cases hf : s.nextChangeAt ≤ t
      · simp [tick, hd, hf]
        exact bounce1_fst_low _ _ _ _ hcross
      · simp [tick, hd, hf]
        exact bounce1_fst_low _ _ _ _ hcross
    · intro ht
      have hnf : ¬ s.nextChangeAt ≤ t := not_le.mpr ht
      simp only [tick, hd, hnf, and_false, false_and, if_false, if_pos rfl]
      rw [bounce1_low _ _ _ _ hcross]
      simp [abs_of_neg hvy]
  · have hvy : 0 < s.vel.y := by
      by_contra hc
      push_neg at hc
      have := mul_nonneg (neg_nonneg.mpr hc) hdt.le
      have h2 : s.vel.y * dt ≤ 0 := by linarith [this]
      linarith [hpy.2]
    refine ⟨hvy, ?_, ?_⟩
    · by_cases hf : s.nextChangeAt ≤ t
      · simp [tick, hd, hf]
        exact bounce1_fst_high _ _ _ _ (le_max_left _ _) hcross
      · simp [tick, hd, hf]
        exact bounce1_fst_high _ _ _ _ (le_max_left _ _) hcross
    · intro ht
      have hnf : ¬ s.nextChangeAt ≤ t := not_le.mpr ht
      simp only [tick, hd, hnf, and_false, false_and, if_false, if_pos rfl]
      rw [bounce1_high _ _ _ _ (le_max_left _ _) hcross]
      simp [abs_of_pos hvy]

/-- C2 witness: at `s370` (entity at x = 370 inside a 400×300 container,
velocity (170, 0)), a 100 ms tick at t = 0, before the deadline 1000,
integrates x to 387 > 376, so the position clamps to the upper limit and
the x velocity flips to −170. -/
theorem reflection_law_w :
    0 < s370.vel.x ∧
    (tick 0 (1/10) ⟨1, 0⟩ 0 s370).pos.x =
      max s370.bounds.padding (s370.bounds.w - s370.bounds.padding) ∧
    (tick 0 (1/10) ⟨1, 0⟩ 0 s370).vel.x = -s370.vel.x := by
  have h := (reflection_law s370 0 (1/10) ⟨1, 0⟩ 0 rfl (by norm_num)
    ⟨by norm_num [s370], by norm_num [s370, le_max_iff]⟩
    ⟨by norm_num [s370], by norm_num [s370, le_max_iff]⟩).2.1
    (by norm_num [s370, max_def])
  exact ⟨h.1, h.2.1, h.2.2 (by norm_num [s370])⟩

/-- C4: at every reachable state, the squared Euclidean magnitude of the
velocity is exactly `SPEED² = 170²` while not dragging, and the velocity is
exactly zero while dragging; every operation preserves this. -/
theorem speed_invariant (s : State) (hs : Reach s) : SpeedInv s := by
  induction hs with
  | init u t0 r hu hr =>
      constructor
      · intro h
        simp [initState] at h
      · intro _
        have hu' : u.x ^ 2 + u.y ^ 2 = 1 := hu
        simp [initState, scaledVel, SPEED]
        linear_combination (28900 : ℚ) * hu'
  | measure w h s hs ih =>
      exact ih
  | tick t dt u r s hs hu hr ih =>
      by_cases hb : s.dragging = false
      · by_cases hf : s.nextChangeAt ≤ t
        · constructor
          · intro h
            rw [tick_dragging, hb] at h
            exact absurd h (by simp)
          · intro _
            simp [tick, hb, hf]
            rw [bounce1_snd_sq, bounce1_snd_sq]
            have hu' : u.x ^ 2 + u.y ^ 2 = 1 := hu
            simp [scaledVel, SPEED]
            linear_combination (28900 : ℚ) * hu'
        · constructor
          · intro h
            rw [tick_dragging, hb] at h
            exact absurd h (by simp)
          · intro _
            simp [tick, hb, hf]
            rw [bounce1_snd_sq, bounce1_snd_sq]
            exact ih.2 hb
      · constructor
        · intro _
          simp [tick, hb]
          exact ih.1 (by simpa using hb)
        · intro h
          rw [tick_dragging] at h
          exact absurd h hb
  | down px py s hs ih =>
      constructor
      · intro _
        rfl
      · intro h
        simp [onPointerDown] at h
  | move px py s hs ih =>
      constructor
      · intro h
        rw [move_vel]
        exact ih.1 (by rwa [move_dragging] at h)
      · intro h
        rw [move_vel]
        exact ih.2 (by rwa [move_dragging] at h)
  | up now u r s hs hu hr ih =>
      by_cases hb : s.dragging = false
      · have he : onPointerUp now u r s = s := by simp [onPointerUp, hb]
        rwa [he]
      · constructor
        · intro h
          simp [onPointerUp, hb] at h
        · intro _
          simp [onPointerUp, hb, scaledVel, SPEED]
          have hu' : u.x ^ 2 + u.y ^ 2 = 1 := hu
          linear_combination (28900 : ℚ) * hu'

/-- C4 witness: the invariant at the concrete initial state with direction
(1, 0) and draw 0. -/
theorem speed_invariant_w : SpeedInv (initState ⟨1, 0⟩ 0 0) :=
  speed_invariant _
    (Reach.init ⟨1, 0⟩ 0 0 (by norm_num [IsUnitVec]) (by norm_num [Rand01]))

/-- C7: for both randomization events — a tick whose deadline has expired
while not dragging, and a drag release — the newly scheduled deadline is
strictly later than the event time `t` and lies within
`[t + 700, t + 2200]` (the draw `r` ranges over `[0, 1)`). -/
theorem deadline_schedule_bounds (s : State) (t dt : ℚ) (u : Vec) (r : ℚ)
    (hr : Rand01 r) :
    (s.dragging = false → s.nextChangeAt ≤ t →
      t < (tick t dt u r s).nextChangeAt ∧
      t + CHANGE_INTERVAL_MIN ≤ (tick t dt u r s).nextChangeAt ∧
      (tick t dt u r s).nextChangeAt ≤ t + CHANGE_INTERVAL_MAX) ∧
    (s.dragging = true →
      t < (onPointerUp t u r s).nextChangeAt ∧
      t + CHANGE_INTERVAL_MIN ≤ (onPointerUp t u r s).nextChangeAt ∧
      (onPointerUp t u r s).nextChangeAt ≤ t + CHANGE_INTERVAL_MAX) := by
  obtain ⟨hr0, hr1⟩ := hr
  constructor
  · intro hb hf
    simp [tick, hb, hf, scheduleNext, CHANGE_INTERVAL_MIN, CHANGE_INTERVAL_MAX]
    refine ⟨by linarith, by linarith, by linarith⟩
  · intro hb
    simp [onPointerUp, hb, scheduleNext, CHANGE_INTERVAL_MIN, CHANGE_INTERVAL_MAX]
    refine ⟨by linarith, by linarith, by linarith⟩

/-- C7 witness: a tick at `t = 2000` on `sZero` (deadline 1000, expired)
with draw 1/2 schedules the next change at 3450 ∈ (2000, 2000+700, 2000+2200]. -/
theorem deadline_schedule_bounds_w :
    (2000 : ℚ) < (tick 2000 (1/10) ⟨1, 0⟩ (1/2) sZero).nextChangeAt ∧
    (2000 : ℚ) + CHANGE_INTERVAL_MIN ≤ (tick 2000 (1/10) ⟨1, 0⟩ (1/2) sZero).nextChangeAt ∧
    (tick 2000 (1/10) ⟨1, 0⟩ (1/2) sZero).nextChangeAt ≤ 2000 + CHANGE_INTERVAL_MAX :=
  (deadline_schedule_bounds sZero 2000 (1/10) ⟨1, 0⟩ (1/2)
    (by norm_num [Rand01])).1 (by norm_num [sZero]) (by norm_num [sZero])

/-- C6: on drag release the drag flag clears; if the squared distance from
the position to the container center is below 60² (equivalently,
`Math.hypot` distance below 60 px) the position snaps to the exact center,
otherwise it stays at the release point; a fresh random velocity of squared
magnitude 170² is assigned and the deadline is rescheduled to
`now + 700 + r·1500`. -/
theorem endDrag_spec (s : State) (now r : ℚ) (u : Vec)
    (hd : s.dragging = true) (hu : IsUnitVec u) :
    (onPointerUp now u r s).dragging = false ∧
    ((s.pos.x - s.bounds.w / 2) ^ 2 + (s.pos.y - s.bounds.h / 2) ^ 2 < 60 ^ 2 →
      (onPointerUp now u r s).pos = ⟨s.bounds.w / 2, s.bounds.h / 2⟩) ∧
    (60 ^ 2 ≤ (s.pos.x - s.bounds.w / 2) ^ 2 + (s.pos.y - s.bounds.h / 2) ^ 2 →
      (onPointerUp now u r s).pos = s.pos) ∧
    (onPointerUp now u r s).vel.x ^ 2 + (onPointerUp now u r s).vel.y ^ 2 = SPEED ^ 2 ∧
    (onPointerUp now u r s).nextChangeAt =
      now + CHANGE_INTERVAL_MIN + r * (CHANGE_INTERVAL_MAX - CHANGE_INTERVAL_MIN) := by
  have hb : ¬ s.dragging = false := by simp [hd]
  refine ⟨?_, ?_, ?_, ?_, ?_⟩
  · simp [onPointerUp, hb]
  · intro hlt
    simp [onPointerUp, hb, hlt]
  · intro hge
    simp [onPointerUp, hb, not_lt.mpr hge]
  · have hu' : u.x ^ 2 + u.y ^ 2 = 1 := hu
    simp [onPointerUp, hb, scaledVel, SPEED]
    linear_combination (28900 : ℚ) * hu'
  · simp [onPointerUp, hb, scheduleNext]

/-- C6 witness: releasing at the exact center of `sDrag` (distance 0 < 60)
snaps to the center (200, 150), clears the flag, and with draw 1/2
reschedules the deadline to 0 + 700 + 750 = 1450. -/
theorem endDrag_spec_w :
    (onPointerUp 0 ⟨3/5, 4/5⟩ (1/2) sDrag).dragging = false ∧
    (onPointerUp 0 ⟨3/5, 4/5⟩ (1/2) sDrag).pos = ⟨200, 150⟩ ∧
    (onPointerUp 0 ⟨3/5, 4/5⟩ (1/2) sDrag).nextChangeAt = 1450 := by
  have h := endDrag_spec sDrag 0 (1/2) ⟨3/5, 4/5⟩ rfl (by norm_num [IsUnitVec])
  refine ⟨h.1, ?_, ?_⟩
  · have h2 := h.2.1 (by norm_num [sDrag])
    rw [h2]
    norm_num [sDrag]
  · rw [h.2.2.2.2]
    norm_num [CHANGE_INTERVAL_MIN, CHANGE_INTERVAL_MAX]

/-- C8: while dragging on a measured, non-degenerate container, a pointer
move to container-local `(px, py)` sets the position to the pointer minus
the stored grab offset, clamped per axis to `[padding, dimension − padding]`
(written as the interval projection). -/
theorem dragUpdate_clamps (s : State) (px py : ℚ) (hd : s.dragging = true)
    (hw : 2 * s.bounds.padding ≤ s.bounds.w)
    (hh : 2 * s.bounds.padding ≤ s.bounds.h) :
    (onPointerMove px py s).pos.x =
      (if px - s.dragOffset.x < s.bounds.padding then s.bounds.padding
       else if s.bounds.w - s.bounds.padding < px - s.dragOffset.x
         then s.bounds.w - s.bounds.padding
         else px - s.dragOffset.x) ∧
    (onPointerMove px py s).pos.y =
      (if py - s.dragOffset.y < s.bounds.padding then s.bounds.padding
       else if s.bounds.h - s.bounds.padding < py - s.dragOffset.y
         then s.bounds.h - s.bounds.padding
         else py - s.dragOffset.y) := by
  have hb : ¬ s.dragging = false := by simp [hd]
  constructor
  · simp [onPointerMove, hb]
    by_cases h1 : px - s.dragOffset.x < s.bounds.padding
    · rw [if_pos h1, min_eq_left (by linarith), max_eq_left (by linarith)]
    · push_neg at h1
      by_cases h2 : s.bounds.w - s.bounds.padding < px - s.dragOffset.x
      · rw [if_neg (not_lt.mpr h1), if_pos h2, min_eq_right (by linarith),
          max_eq_right (by linarith)]
      · push_neg at h2
        rw [if_neg (not_lt.mpr h1), if_neg (not_lt.mpr h2), min_eq_left h2,
          max_eq_right h1]
  · simp [onPointerMove, hb]
    by_cases h1 : py - s.dragOffset.y < s.bounds.padding
    · rw [if_pos h1, min_eq_left (by linarith), max_eq_left (by linarith)]
    · push_neg at h1
      by_cases h2 : s.bounds.h - s.bounds.padding < py - s.dragOffset.y
      · rw [if_neg (not_lt.mpr h1), if_pos h2, min_eq_right (by linarith),
          max_eq_right (by linarith)]
      · push_neg at h2
        rw [if_neg (not_lt.mpr h1), if_neg (not_lt.mpr h2), min_eq_left h2,
          max_eq_right h1]

/-- C8 witness: the spec's scenario — grab at the entity center (offset 0)
on a 400×300 container with padding 24, pointer at (10, 10) — yields
position (24, 24). -/
theorem dragUpdate_clamps_w :
    (onPointerMove 10 10 sDrag).pos.x = 24 ∧ (onPointerMove 10 10 sDrag).pos.y = 24 := by
  have h := dragUpdate_clamps sDrag 10 10 rfl (by norm_num [sDrag]) (by norm_num [sDrag])
  have hx := h.1
  have hy := h.2
  norm_num [sDrag] at hx hy
  exact ⟨hx, hy⟩

/-- C9 counterexample: the derived facing angle is a pure function of the
current velocity; at zero velocity it is the fixed value 90°
(`Math.atan2(0, 0) = 0` plus the 90° offset). Starting from a non-zero
velocity (0, 170) whose facing is 180°, zeroing the velocity (as `beginDrag`
does) changes the facing to 90° — the last non-zero facing is *not*
retained. -/
theorem angleDeg_zero_resets :
    angleDeg 0 0 = 90 ∧ angleDeg 170 0 = 180 ∧ angleDeg 0 0 ≠ angleDeg 170 0 := by
  have h0 : atan2 0 0 = 0 := by norm_num [atan2]
  have h1 : atan2 170 0 = Real.pi / 2 := by norm_num [atan2]
  have ha : angleDeg 0 0 = 90 := by
    rw [angleDeg, h0]
    ring
  have hb : angleDeg 170 0 = 180 := by
    rw [angleDeg, h1]
    field_simp
    ring
  refine ⟨ha, hb, ?_⟩
  rw [ha, hb]
  norm_num

/-- C9 (amended): whenever the velocity is exactly zero (i.e. during a
drag), the derived facing angle is the fixed orientation 90° — it does not
retain the last value computed from a non-zero velocity. -/
theorem angleDeg_zero_fixed : angleDeg 0 0 = 90 := by
  have h0 : atan2 0 0 = 0 := by norm_num [atan2]
  rw [angleDeg, h0]
  ring

/-- C10: with degenerate bounds (dimension ≤ 2·padding on an axis, e.g. a
zero-size container) the per-axis clamp limits collapse to the single value
`padding`, so a non-dragging tick and a drag update are total and park the
entity at (padding, padding) instead of failing. -/
theorem degenerate_bounds_park (s : State) (t dt px py : ℚ) (u : Vec) (r : ℚ)
    (hw : s.bounds.w ≤ 2 * s.bounds.padding)
    (hh : s.bounds.h ≤ 2 * s.bounds.padding) :
    (s.dragging = false →
      (tick t dt u r s).pos.x = s.bounds.padding ∧
      (tick t dt u r s).pos.y = s.bounds.padding) ∧
    (s.dragging = true →
      (onPointerMove px py s).pos.x = s.bounds.padding ∧
      (onPointerMove px py s).pos.y = s.bounds.padding) := by
  have hmx : max s.bounds.padding (s.bounds.w - s.bounds.padding) = s.bounds.padding :=
    max_eq_left (by linarith)
  have hmy : max s.bounds.padding (s.bounds.h - s.bounds.padding) = s.bounds.padding :=
    max_eq_left (by linarith)
  constructor
  · intro hb
    simp [tick, hb]
    rw [hmx, hmy]
    exact ⟨bounce1_park _ _ _, bounce1_park _ _ _⟩
  · intro hb
    have hbb : ¬ s.dragging = false := by simp [hb]
    simp [onPointerMove, hbb]
    exact ⟨Or.inr (by linarith), Or.inr (by linarith)⟩

/-- C10 witness: on the unmeasured zero-size container `sZero`, a 1 s tick
from the origin parks the entity at (24, 24). -/
theorem degenerate_bounds_park_w :
    (tick 0 1 ⟨1, 0⟩ 0 sZero).pos.x = 24 ∧ (tick 0 1 ⟨1, 0⟩ 0 sZero).pos.y = 24 := by
  have h := (degenerate_bounds_park sZero 0 1 10 10 ⟨1, 0⟩ 0
    (by norm_num [sZero]) (by norm_num [sZero])).1 rfl
  simpa [sZero] using h

end BugRunner
